import Mathlib

/-!
Verification development for the interactive pause/resume control-plane of
the argus test-orchestration harness (`argus/debug/debugger.py`,
`argus/debug/listener.py`, `argus/config.py`).

The Python code is shallowly embedded: each side-effecting call (logging,
socket sends/receives, console output, closing a connection, invoking the
wrapped operation) is recorded as an `Event` in a trace, and Python
exceptions are an explicit `PyExc` value in an `Except` result.  The network
environment seen by one `pause` call is an `Env`: whether the listener
accepts the shared secret, and which single message the blocking
`recv_bytes()` eventually yields (the no-timeout blocking itself is outside
the model; a reply is assumed to arrive).
-/

namespace Argus

/-- Observable effects performed by the debugger or the listener.  `call`
records the instrumented operation being invoked with its original
arguments and the value it returned. -/
inductive Event where
  | logException (text : String)
  | logWarning (text : String)
  | stdoutInfo (text : String)
  | promptInput (text : String)
  | sendBytes (payload : String)
  | recvBytes (payload : String)
  | close
  | call (args : List Nat) (ret : Nat)
  deriving DecidableEq, BEq

/-- Python exceptions relevant to the debug subsystem.
`typeErrorRaiseNone` is the TypeError produced by executing `raise x`
where `x` is `None` (the return value of `self._log.exception(...)`). -/
inductive PyExc where
  | authenticationError
  | valueError
  | typeErrorRaiseNone
  deriving DecidableEq

/-- Network environment of a single pause rendezvous: whether the listening
side accepts the shared secret, and the one message the blocking receive
yields. -/
structure Env where
  authOk : Bool
  reply : String
  deriving DecidableEq

/-- Byte size of a Python string payload, modelled as its character count. -/
def pySize (s : String) : Nat := s.data.length

/-- Modelled from the spec: the framing ceiling of the connection primitive
(`multiprocessing.connection`, an external collaborator not under src/) is
32 MiB; a larger payload fails with the size error rather than being sent. -/
def maxMessage : Nat := 33554432

/-- Modelled from the spec: `Connection.send_bytes(payload)` performs a
whole-message framed send; a payload above the 32 MiB ceiling raises the
size error (`ValueError` in the source's handler) and nothing is sent. -/
def send_bytes (payload : String) : List Event × Except PyExc Unit :=
  if maxMessage < pySize payload then ([], Except.error PyExc.valueError)
  else ([Event.sendBytes payload], Except.ok ())

/-- Log text of `BasicDebugger._new_client`'s handler; the two adjacent
Python string literals concatenate without a space, exactly as in the
source. -/
def authFailureText : String :=
  "AuthenticationError - Client creationfailed. Check authentication key!"

/-- Log text shared by `BasicDebugger._notice_server` and
`BasicListener.start` for an oversized payload. -/
def tooLargeText : String := "ValueError - Message has more than 32MB."

namespace BasicDebugger

/-- Embedding of `BasicDebugger._new_client`: `connection.Client(...)`
succeeds when the listener accepts the secret; on `AuthenticationError` the
source executes `raise self._log.exception(...)`, which logs and then raises
the logger's `None` return value, i.e. a TypeError. -/
def new_client (env : Env) : List Event × Except PyExc Unit :=
  if env.authOk then ([], Except.ok ())
  else ([Event.logException authFailureText], Except.error PyExc.typeErrorRaiseNone)

/-- Embedding of `BasicDebugger._notice_server`: send the action tag then
the message inside one `try`; a `ValueError` from either send is caught and
logged, and the method returns normally either way. -/
def notice_server (action msg : String) : List Event :=
  match send_bytes action with
  | (evs, Except.error _) => evs ++ [Event.logException tooLargeText]
  | (evs, Except.ok _) =>
      match send_bytes msg with
      | (evs2, Except.error _) => evs ++ evs2 ++ [Event.logException tooLargeText]
      | (evs2, Except.ok _) => evs ++ evs2

/-- Embedding of `BasicDebugger.pause`: create a client (propagating its
exception), notify the server with tag `"pause"` and the message, block on
one receive, and close the connection only when the received message equals
`"resume"`; then fall off the end of the function (normal return). -/
def pause (env : Env) (msg : String) : List Event × Except PyExc Unit :=
  match new_client env with
  | (evs, Except.error e) => (evs, Except.error e)
  | (evs, Except.ok _) =>
      let evs2 := notice_server "pause" msg
      let evs3 := [Event.recvBytes env.reply]
      let evs4 := if env.reply = "resume" then [Event.close] else []
      (evs ++ evs2 ++ evs3 ++ evs4, Except.ok ())

/-- Embedding of `BasicDebugger._action_before_method`. -/
def action_before_method (env : Env) (func_name : String) : List Event × Except PyExc Unit :=
  pause env ("We are before method " ++ func_name ++ "!")

/-- Embedding of `BasicDebugger._action_after_method`. -/
def action_after_method (env : Env) (func_name : String) : List Event × Except PyExc Unit :=
  pause env ("We are after method " ++ func_name ++ "!")

end BasicDebugger

/-- A pause strategy as consumed by `BaseDebugger.wait`: the pair of hook
methods every debugger implements. -/
structure Strategy where
  action_before_method : String → List Event × Except PyExc Unit
  action_after_method : String → List Event × Except PyExc Unit

namespace EmptyDebugger

/-- Embedding of `EmptyDebugger.pause(self, *args)`: a pure no-op. -/
def pause (args : List String) : List Event × Except PyExc Unit := ([], Except.ok ())

/-- Embedding of `EmptyDebugger._action_before_method`: a pure no-op. -/
def action_before_method (func_name : String) : List Event × Except PyExc Unit :=
  ([], Except.ok ())

/-- Embedding of `EmptyDebugger._action_after_method`: a pure no-op. -/
def action_after_method (func_name : String) : List Event × Except PyExc Unit :=
  ([], Except.ok ())

/-- The `EmptyDebugger` viewed as a strategy. -/
def strategy : Strategy :=
  { action_before_method := action_before_method
    action_after_method := action_after_method }

end EmptyDebugger

/-- The `BasicDebugger` (under a given network environment) viewed as a
strategy. -/
def BasicDebugger.strategy (env : Env) : Strategy :=
  { action_before_method := BasicDebugger.action_before_method env
    action_after_method := BasicDebugger.action_after_method env }

namespace BaseDebugger

/-- Embedding of `BaseDebugger.wait`'s `_inner`: run the before hook, invoke
the original operation with the original arguments, run the after hook, and
fall off the end of the function — Python returns `None` (`none` here), not
the operation's value.  Operations are modelled as total functions
`List Nat → Nat`; the Python `func.__name__` is the explicit `funcName`
parameter.  An exception from a hook propagates and aborts the rest. -/
def wait (s : Strategy) (func : List Nat → Nat) (funcName : String)
    (args : List Nat) : List Event × Except PyExc (Option Nat) :=
  match s.action_before_method funcName with
  | (bevs, Except.error e) => (bevs, Except.error e)
  | (bevs, Except.ok _) =>
      let ret := func args
      match s.action_after_method funcName with
      | (aevs, Except.error e) => (bevs ++ [Event.call args ret] ++ aevs, Except.error e)
      | (aevs, Except.ok _) => (bevs ++ [Event.call args ret] ++ aevs, Except.ok none)

end BaseDebugger

/-- The `[debug]` configuration consumed by the debug subsystem
(`ConfigurationParser.debug`: flag, ip, port, authkey). -/
structure DebugConfig where
  flag : Bool
  ip : String
  port : Nat
  authkey : String
  deriving DecidableEq

/-- Outcome of the factory `Debugger.get`: either the null debugger or a
`BasicDebugger` holding the ip, port and authkey that
`BaseDebugger.__init__` copies out of the config. -/
inductive SelectedDebugger where
  | empty
  | basic (ip : String) (port : Nat) (authkey : String)
  deriving DecidableEq

namespace Debugger

/-- Embedding of `Debugger.get`: when the flag is set, read the disclaimer
file and log it as a warning, then return a `BasicDebugger` built from the
same config; otherwise return an `EmptyDebugger`.  The content of
`argus/debug/disclaimer.txt` is external data, passed in as `disclaimer`. -/
def get (cfg : DebugConfig) (disclaimer : String) : List Event × SelectedDebugger :=
  if cfg.flag then
    ([Event.logWarning disclaimer], SelectedDebugger.basic cfg.ip cfg.port cfg.authkey)
  else ([], SelectedDebugger.empty)

end Debugger

namespace BasicListener

/-- Embedding of one iteration of `BasicListener.start`'s accept loop, for
one accepted connection: the two unconditional framed receives (type tag,
then message), the operator dialogue when the tag is `"pause"`, and the
guarded `send_bytes` of the resume signal when the operator enters `"1"`
(its `ValueError` handler logs, mirroring the source).  `opInput` is what
`raw_input('Prompt: ')` returns; the prompt itself is recorded.  The
source never calls `conn.close()`, so no `close` event can occur. -/
def iteration (typec msg opInput : String) : List Event :=
  [Event.recvBytes typec, Event.recvBytes msg] ++
  (if typec = "pause" then
    [Event.stdoutInfo msg,
     Event.stdoutInfo "Enter the number of what you want to do:",
     Event.stdoutInfo "1. Continue",
     Event.promptInput "Prompt: "] ++
    (if opInput = "1" then
      [Event.stdoutInfo "Argus is resumed!"] ++
      (match send_bytes "resume" with
       | (evs, Except.error _) => evs ++ [Event.logException tooLargeText]
       | (evs, Except.ok _) => evs)
     else [])
   else [])

/-- One accepted connection as the console observes it: the two framed
messages the subject sent and the line the operator then types. -/
structure Conn where
  typec : String
  msg : String
  opInput : String

/-- Embedding of `BasicListener.start`'s `while True` accept loop, run over
a finite stream of arriving connections (the real loop never terminates;
each element is one accept-serve round, after which the loop is back in its
accepting state for the rest of the stream). -/
def start : List Conn → List Event
  | [] => []
  | c :: rest => iteration c.typec c.msg c.opInput ++ start rest

end BasicListener

/-- Predicate selecting the receive events of a trace. -/
def isRecv : Event → Bool
  | Event.recvBytes _ => true
  | _ => false

/-- A concrete payload of 32 MiB plus one byte, exceeding the framing
ceiling. -/
def bigMsg : String := String.mk (List.replicate 33554433 'a')

/-! Helper lemmas about the embedded operations. -/

theorem bigMsg_size : maxMessage < pySize bigMsg := by
  have h : pySize bigMsg = 33554433 := by
    show (List.replicate 33554433 'a').length = 33554433
    exact List.length_replicate 33554433 'a'
  rw [h, maxMessage]
  norm_num

theorem send_bytes_small (p : String) (h : pySize p ≤ maxMessage) :
    send_bytes p = ([Event.sendBytes p], Except.ok ()) := by
  unfold send_bytes
  rw [if_neg (Nat.not_lt.mpr h)]

theorem send_bytes_big (p : String) (h : maxMessage < pySize p) :
    send_bytes p = ([], Except.error PyExc.valueError) := by
  unfold send_bytes
  rw [if_pos h]

theorem notice_server_small (m : String) (h : pySize m ≤ maxMessage) :
    BasicDebugger.notice_server "pause" m =
      [Event.sendBytes "pause", Event.sendBytes m] := by
  simp [BasicDebugger.notice_server, send_bytes_small "pause" (by decide),
    send_bytes_small m h]

theorem notice_server_big (m : String) (h : maxMessage < pySize m) :
    BasicDebugger.notice_server "pause" m =
      [Event.sendBytes "pause", Event.logException tooLargeText] := by
  simp [BasicDebugger.notice_server, send_bytes_small "pause" (by decide),
    send_bytes_big m h]

theorem pause_authOk (reply msg : String) :
    BasicDebugger.pause ⟨true, reply⟩ msg =
      (BasicDebugger.notice_server "pause" msg ++ [Event.recvBytes reply] ++
        (if reply = "resume" then [Event.close] else []), Except.ok ()) := rfl

theorem pause_authOk_small (reply msg : String) (h : pySize msg ≤ maxMessage) :
    BasicDebugger.pause ⟨true, reply⟩ msg =
      ([Event.sendBytes "pause", Event.sendBytes msg, Event.recvBytes reply] ++
        (if reply = "resume" then [Event.close] else []), Except.ok ()) := by
  rw [pause_authOk, notice_server_small msg h]
  rfl

theorem pause_authOk_big (reply msg : String) (h : maxMessage < pySize msg) :
    BasicDebugger.pause ⟨true, reply⟩ msg =
      ([Event.sendBytes "pause", Event.logException tooLargeText,
        Event.recvBytes reply] ++
        (if reply = "resume" then [Event.close] else []), Except.ok ()) := by
  rw [pause_authOk, notice_server_big msg h]
  rfl

/-! Claim theorems. -/

/-- C1 counterexample: wrapping an operation that returns 42 yields an
instrumented call that returns Python `None` (`none`), not 42 — the source's
`_inner` has no `return` statement, so the original return value is
discarded. -/
theorem wait_drops_return_value :
    (BaseDebugger.wait EmptyDebugger.strategy (fun _ => 42) "op" [7]).2 =
      Except.ok none ∧
    (Except.ok none : Except PyExc (Option Nat)) ≠ Except.ok (some 42) := by
  refine ⟨rfl, ?_⟩
  intro h
  simp at h

/-- C1 (amended): the instrumented callable produced by `BaseDebugger.wait`
calls the before hook, invokes the original operation with the original
arguments, calls the after hook, and returns Python `None`, discarding the
operation's return value. -/
theorem wait_runs_hooks_and_returns_none (s : Strategy) (func : List Nat → Nat)
    (name : String) (args : List Nat) (bevs aevs : List Event)
    (hb : s.action_before_method name = (bevs, Except.ok ()))
    (ha : s.action_after_method name = (aevs, Except.ok ())) :
    BaseDebugger.wait s func name args =
      (bevs ++ [Event.call args (func args)] ++ aevs, Except.ok none) := by
  simp [BaseDebugger.wait, hb, ha]

/-- Witness for the amended C1 theorem: the null strategy and an operation
returning 42, at arguments `[7]`. -/
theorem wait_runs_hooks_and_returns_none_witness :
    BaseDebugger.wait EmptyDebugger.strategy (fun _ => 42) "op" [7] =
      ([] ++ [Event.call [7] 42] ++ [], Except.ok none) :=
  wait_runs_hooks_and_returns_none EmptyDebugger.strategy (fun _ => 42)
    "op" [7] [] [] rfl rfl

/-- C2 counterexample: a received message other than `"resume"` still lets
`pause` return control to its caller — the source falls off the end of
`pause` whatever `recv_bytes()` yielded. -/
theorem pause_returns_on_nonresume :
    (BasicDebugger.pause ⟨true, "abort"⟩ "msg").2 = Except.ok () ∧
    "abort" ≠ "resume" := by
  exact ⟨rfl, by decide⟩

/-- C2 (amended): under an accepted secret, `pause` performs exactly one
blocking receive (no loop or retry) and then returns control to its caller
regardless of which message was received. -/
theorem pause_single_shot_returns (reply msg : String) :
    (BasicDebugger.pause ⟨true, reply⟩ msg).2 = Except.ok () ∧
    ((BasicDebugger.pause ⟨true, reply⟩ msg).1.filter isRecv) =
      [Event.recvBytes reply] := by
  rcases le_or_lt (pySize msg) maxMessage with h | h
  · rw [pause_authOk_small reply msg h]
    refine ⟨rfl, ?_⟩
    by_cases hres : reply = "resume" <;> simp [hres, isRecv]
  · rw [pause_authOk_big reply msg h]
    refine ⟨rfl, ?_⟩
    by_cases hres : reply = "resume" <;> simp [hres, isRecv]

/-- C4: with a rejected shared secret, `pause` logs the authentication
failure and sends no message at all, but the exception that propagates to
the caller is the TypeError produced by `raise self._log.exception(...)`
(raising the logger's `None` return value), not the AuthenticationError
itself. -/
theorem pause_auth_failure_raises_logger_return (reply msg : String) :
    BasicDebugger.pause ⟨false, reply⟩ msg =
      ([Event.logException authFailureText],
        Except.error PyExc.typeErrorRaiseNone) ∧
    (Except.error PyExc.typeErrorRaiseNone : Except PyExc Unit) ≠
      Except.error PyExc.authenticationError := by
  refine ⟨rfl, ?_⟩
  intro h
  simp at h

/-- C3 counterexample: at a concrete payload exceeding the 32 MiB ceiling,
`pause` returns normally — the size error is caught inside `_notice_server`
and never reaches `pause`'s caller. -/
theorem pause_oversized_not_propagated :
    maxMessage < pySize bigMsg ∧
    (BasicDebugger.pause ⟨true, "resume"⟩ bigMsg).2 = Except.ok () ∧
    (BasicDebugger.pause ⟨true, "resume"⟩ bigMsg).2 ≠
      Except.error PyExc.valueError := by
  refine ⟨bigMsg_size, rfl, ?_⟩
  have h : (BasicDebugger.pause ⟨true, "resume"⟩ bigMsg).2 = Except.ok () := rfl
  rw [h]
  intro hc
  simp at hc

/-- C3 (amended): for an oversized pause payload the ValueError raised by
the send is caught and logged inside `_notice_server` and not propagated:
`pause` returns normally to its caller, the oversized message itself is
never sent, `pause` goes on to block on the receive, and the connection is
closed only when the received message is `"resume"` (otherwise it stays
open). -/
theorem pause_oversized_logged_swallowed (reply msg : String)
    (h : maxMessage < pySize msg) :
    Event.logException tooLargeText ∈ (BasicDebugger.pause ⟨true, reply⟩ msg).1 ∧
    Event.sendBytes msg ∉ (BasicDebugger.pause ⟨true, reply⟩ msg).1 ∧
    Event.recvBytes reply ∈ (BasicDebugger.pause ⟨true, reply⟩ msg).1 ∧
    (BasicDebugger.pause ⟨true, reply⟩ msg).2 = Except.ok () ∧
    ((BasicDebugger.pause ⟨true, reply⟩ msg).1.contains Event.close =
      (reply == "resume")) := by
  rw [pause_authOk_big reply msg h]
  have hm : msg ≠ "pause" := by
    intro he
    rw [he] at h
    revert h
    decide
  by_cases hres : reply = "resume"
  · subst hres
    refine ⟨by simp, ?_, by simp, rfl, rfl⟩
    simp [hm]
  · rw [if_neg hres, beq_eq_false_iff_ne.mpr hres]
    refine ⟨by simp, ?_, by simp, rfl, rfl⟩
    simp [hm]

/-- Witness for the amended C3 theorem: the concrete 32 MiB + 1 payload with
the console replying `"resume"`. -/
theorem pause_oversized_logged_swallowed_witness :
    Event.logException tooLargeText ∈
      (BasicDebugger.pause ⟨true, "resume"⟩ bigMsg).1 ∧
    Event.sendBytes bigMsg ∉ (BasicDebugger.pause ⟨true, "resume"⟩ bigMsg).1 ∧
    Event.recvBytes "resume" ∈ (BasicDebugger.pause ⟨true, "resume"⟩ bigMsg).1 ∧
    (BasicDebugger.pause ⟨true, "resume"⟩ bigMsg).2 = Except.ok () ∧
    ((BasicDebugger.pause ⟨true, "resume"⟩ bigMsg).1.contains Event.close =
      ("resume" == "resume")) :=
  pause_oversized_logged_swallowed "resume" bigMsg bigMsg_size

/-- C5 counterexample: serving a pause request with operator input `"1"`,
the console never closes the connection — `BasicListener.start` contains no
`conn.close()` call. -/
theorem listener_resume_without_close :
    (BasicListener.iteration "pause" "hello" "1").contains Event.close =
      false := by
  decide

/-- C5 (amended): on a connection tagged `"pause"` with operator input
`"1"`, the console displays the message and menu, announces the resumption,
sends the resume signal on the same connection — without closing it (the
subject side closes it) — and the loop returns to the accepting state for
the remaining connections. -/
theorem listener_pause_resume_flow (msg : String)
    (rest : List BasicListener.Conn) :
    BasicListener.iteration "pause" msg "1" =
      [Event.recvBytes "pause", Event.recvBytes msg,
       Event.stdoutInfo msg,
       Event.stdoutInfo "Enter the number of what you want to do:",
       Event.stdoutInfo "1. Continue",
       Event.promptInput "Prompt: ",
       Event.stdoutInfo "Argus is resumed!",
       Event.sendBytes "resume"] ∧
    Event.close ∉ BasicListener.iteration "pause" msg "1" ∧
    BasicListener.start ({ typec := "pause", msg := msg, opInput := "1" } :: rest) =
      BasicListener.iteration "pause" msg "1" ++ BasicListener.start rest := by
  have hit : BasicListener.iteration "pause" msg "1" =
      [Event.recvBytes "pause", Event.recvBytes msg,
       Event.stdoutInfo msg,
       Event.stdoutInfo "Enter the number of what you want to do:",
       Event.stdoutInfo "1. Continue",
       Event.promptInput "Prompt: ",
       Event.stdoutInfo "Argus is resumed!",
       Event.sendBytes "resume"] := by
    simp [BasicListener.iteration, send_bytes_small "resume" (by decide)]
  refine ⟨hit, ?_, rfl⟩
  rw [hit]
  simp

/-- C6 counterexample: when the received message is not `"resume"`, `pause`
exits normally yet never closes the connection it opened — the connection is
not closed on every exit path. -/
theorem pause_leaves_connection_open :
    (BasicDebugger.pause ⟨true, "quit"⟩ "hello").1.contains Event.close =
      false ∧
    (BasicDebugger.pause ⟨true, "quit"⟩ "hello").2 = Except.ok () := by
  exact ⟨by decide, rfl⟩

/-- C6 (amended): under an accepted secret a pause attempt returns control
to its caller exactly once (normal return), and the connection is closed
exactly when the received message is the resume signal — so a completed
pause-then-resume round trip leaves no open connection, while any other
received message leaves the connection open. -/
theorem pause_close_iff_resume (reply msg : String) :
    ((BasicDebugger.pause ⟨true, reply⟩ msg).1.contains Event.close =
      (reply == "resume")) ∧
    (BasicDebugger.pause ⟨true, reply⟩ msg).2 = Except.ok () := by
  rcases le_or_lt (pySize msg) maxMessage with h | h
  · rw [pause_authOk_small reply msg h]
    refine ⟨?_, rfl⟩
    by_cases hres : reply = "resume"
    · subst hres
      rfl
    · rw [if_neg hres, beq_eq_false_iff_ne.mpr hres]
      rfl
  · rw [pause_authOk_big reply msg h]
    refine ⟨?_, rfl⟩
    by_cases hres : reply = "resume"
    · subst hres
      rfl
    · rw [if_neg hres, beq_eq_false_iff_ne.mpr hres]
      rfl

/-- C7: the factory `Debugger.get` returns the `EmptyDebugger` whenever the
debug flag is false, and whenever the flag is true it displays the operator
disclaimer text as a warning and returns a `BasicDebugger` configured with
the ip, port and authkey of that same config. -/
theorem debugger_get_selects (cfg : DebugConfig) (disclaimer : String) :
    (cfg.flag = false →
      Debugger.get cfg disclaimer = ([], SelectedDebugger.empty)) ∧
    (cfg.flag = true →
      Debugger.get cfg disclaimer =
        ([Event.logWarning disclaimer],
          SelectedDebugger.basic cfg.ip cfg.port cfg.authkey)) := by
  constructor
  · intro h
    simp [Debugger.get, h]
  · intro h
    simp [Debugger.get, h]

/-- Witness for C7 at two concrete configs, one per flag value. -/
theorem debugger_get_selects_witness :
    Debugger.get ⟨false, "127.0.0.1", 5555, "authkey"⟩ "disclaimer" =
      ([], SelectedDebugger.empty) ∧
    Debugger.get ⟨true, "127.0.0.1", 5555, "authkey"⟩ "disclaimer" =
      ([Event.logWarning "disclaimer"],
        SelectedDebugger.basic "127.0.0.1" 5555 "authkey") :=
  ⟨(debugger_get_selects ⟨false, "127.0.0.1", 5555, "authkey"⟩ "disclaimer").1 rfl,
   (debugger_get_selects ⟨true, "127.0.0.1", 5555, "authkey"⟩ "disclaimer").2 rfl⟩

/-- C8: the `EmptyDebugger` operations `pause`, `_action_before_method` and
`_action_after_method` are pure no-ops for every argument: they perform no
event (no network I/O, no logging) and return normally. -/
theorem empty_debugger_noop (args : List String) (name1 name2 : String) :
    EmptyDebugger.pause args = ([], Except.ok ()) ∧
    EmptyDebugger.action_before_method name1 = ([], Except.ok ()) ∧
    EmptyDebugger.action_after_method name2 = ([], Except.ok ()) :=
  ⟨rfl, rfl, rfl⟩

/-- C9: under the interactive strategy with the console replying `"resume"`,
an instrumented call is strictly sequential: one complete rendezvous whose
message marks the pre-call point, then the operation invoked with the
original arguments, then one complete rendezvous whose message marks the
post-call point — exactly two rendezvous, before then after, in that
order. -/
theorem basic_wait_two_rendezvous (name : String) (func : List Nat → Nat)
    (args : List Nat)
    (hb : pySize ("We are before method " ++ name ++ "!") ≤ maxMessage)
    (ha : pySize ("We are after method " ++ name ++ "!") ≤ maxMessage) :
    BaseDebugger.wait (BasicDebugger.strategy ⟨true, "resume"⟩) func name args =
      ([Event.sendBytes "pause",
        Event.sendBytes ("We are before method " ++ name ++ "!"),
        Event.recvBytes "resume", Event.close,
        Event.call args (func args),
        Event.sendBytes "pause",
        Event.sendBytes ("We are after method " ++ name ++ "!"),
        Event.recvBytes "resume", Event.close], Except.ok none) := by
  have h1 := pause_authOk_small "resume" ("We are before method " ++ name ++ "!") hb
  have h2 := pause_authOk_small "resume" ("We are after method " ++ name ++ "!") ha
  rw [if_pos rfl] at h1 h2
  simp only [BaseDebugger.wait, BasicDebugger.strategy,
    BasicDebugger.action_before_method, BasicDebugger.action_after_method,
    h1, h2]
  rfl

/-- Witness for C9 at the operation name `install_cbinit`, an operation
returning 42 and arguments `[1, 2]`. -/
theorem basic_wait_two_rendezvous_witness :
    BaseDebugger.wait (BasicDebugger.strategy ⟨true, "resume"⟩) (fun _ => 42)
        "install_cbinit" [1, 2] =
      ([Event.sendBytes "pause",
        Event.sendBytes "We are before method install_cbinit!",
        Event.recvBytes "resume", Event.close,
        Event.call [1, 2] 42,
        Event.sendBytes "pause",
        Event.sendBytes "We are after method install_cbinit!",
        Event.recvBytes "resume", Event.close], Except.ok none) :=
  basic_wait_two_rendezvous "install_cbinit" (fun _ => 42) [1, 2]
    (by decide) (by decide)

/-- C10: for an accepted connection whose type tag is not `"pause"`, the
console still performs both framed receives, then displays nothing, sends
nothing and closes nothing, and the loop goes straight back to serving the
remaining connections (so the subject blocked on its receive is never
answered). -/
theorem listener_nonpause_reads_and_ignores (typec msg opInput : String)
    (h : typec ≠ "pause") (rest : List BasicListener.Conn) :
    BasicListener.iteration typec msg opInput =
      [Event.recvBytes typec, Event.recvBytes msg] ∧
    BasicListener.start
        ({ typec := typec, msg := msg, opInput := opInput } :: rest) =
      [Event.recvBytes typec, Event.recvBytes msg] ++ BasicListener.start rest := by
  have hit : BasicListener.iteration typec msg opInput =
      [Event.recvBytes typec, Event.recvBytes msg] := by
    unfold BasicListener.iteration
    rw [if_neg h]
    rfl
  refine ⟨hit, ?_⟩
  have hs : BasicListener.start
      ({ typec := typec, msg := msg, opInput := opInput } :: rest) =
      BasicListener.iteration typec msg opInput ++ BasicListener.start rest := rfl
  rw [hs, hit]

/-- Witness for C10 at the type tag `"resume"` (≠ `"pause"`). -/
theorem listener_nonpause_reads_and_ignores_witness :
    BasicListener.iteration "resume" "zzz" "1" =
      [Event.recvBytes "resume", Event.recvBytes "zzz"] ∧
    BasicListener.start ({ typec := "resume", msg := "zzz", opInput := "1" } :: []) =
      [Event.recvBytes "resume", Event.recvBytes "zzz"] ++
        BasicListener.start [] :=
  listener_nonpause_reads_and_ignores "resume" "zzz" "1" (by decide) []

end Argus
